import Mathlib

/-!
Verification of the grove-domain-search / grove-domain-tool repository:
a shallow embedding of its pricing and batch-orchestration logic
(`src/grove_domain_tool/pricing.py`, `src/grove_domain_search/cli.py`)
together with theorems settling the specification claims.

The repository's `config.py` and `checker.py` are not present in the
sources; the configuration thresholds are therefore passed explicitly
(`PricingConfig`), and the availability checker is modelled from the
specification (see `check_domain`).
-/

/-- The three pricing thresholds consumed from `config.pricing`
(`bundled_max_cents`, `recommended_max_cents`, `premium_flag_above_cents`).
Modelled from the spec: `config.py` is absent from the sources, so the
configuration is an explicit record rather than a process-wide global. -/
structure PricingConfig where
  bundled_max_cents : Int
  recommended_max_cents : Int
  premium_flag_above_cents : Int
deriving DecidableEq, Repr

/-- `DomainPrice` dataclass from `pricing.py`: pricing information for a
domain.  The three boolean flags are set by `__post_init__` (see
`mkDomainPrice`); they are plain stored fields, so the structure keeps them. -/
structure DomainPrice where
  domain : String
  tld : String
  price_cents : Int
  currency : String
  is_premium : Bool
  is_bundled : Bool
  is_recommended : Bool
  annual_renewal_cents : Option Int
deriving DecidableEq, Repr

/-- Construction of a `DomainPrice`, including `__post_init__`, which
overwrites the three flags with threshold comparisons against the
configured `cfg`:
`is_bundled = price_cents <= bundled_max_cents`,
`is_recommended = price_cents <= recommended_max_cents`,
`is_premium = price_cents >= premium_flag_above_cents`. -/
def mkDomainPrice (cfg : PricingConfig) (domain tld : String) (price_cents : Int)
    (currency : String) (annual_renewal_cents : Option Int) : DomainPrice :=
  ⟨domain, tld, price_cents, currency,
    decide (price_cents ≥ cfg.premium_flag_above_cents),
    decide (price_cents ≤ cfg.bundled_max_cents),
    decide (price_cents ≤ cfg.recommended_max_cents),
    annual_renewal_cents⟩

/-- `DomainPrice.category` property from `pricing.py`: the chain
`if is_bundled ... elif is_recommended ... elif is_premium ... else standard`. -/
def DomainPrice.category (p : DomainPrice) : String :=
  if p.is_bundled then "bundled"
  else if p.is_recommended then "recommended"
  else if p.is_premium then "premium"
  else "standard"

/-- The categorization chain exactly as the specification words it:
bundled if `price ≤ bundled_max`; else recommended if
`price ≤ recommended_max`; else premium if `price ≥ premium_flag_above`;
else standard.  Written from the spec, to be compared with the code's
`DomainPrice.category`. -/
def specCategory (cfg : PricingConfig) (price_cents : Int) : String :=
  if price_cents ≤ cfg.bundled_max_cents then "bundled"
  else if price_cents ≤ cfg.recommended_max_cents then "recommended"
  else if price_cents ≥ cfg.premium_flag_above_cents then "premium"
  else "standard"

/-- Python exceptions relevant to the pricing module: the typed
`PricingError` declared in `pricing.py`, and any other exception kind. -/
inductive PyExc where
  | pricingError (msg : String)
  | otherError (msg : String)
deriving DecidableEq, Repr

/-- One entry of the JSON catalog returned by the Cloudflare pricing API:
the `tld` field plus the optional numeric fields `price` and
`renewal_price` (absent fields are `none`; `price` defaults to 0 via
`pricing_info.get("price", 0)`).  JSON numbers are modelled as rationals. -/
structure PricingInfo where
  tld : String
  price : Option Rat
  renewal_price : Option Rat
deriving DecidableEq, Repr

/-- Outcome of one attempt to fetch the pricing catalog over HTTP:
an `httpx.HTTPError` (connection failure or `raise_for_status`), some other
raised exception (e.g. malformed JSON payload), or a decoded response body
with its `success` flag, `errors` text and `result` list. -/
inductive FetchOutcome where
  | httpError (msg : String)
  | raisedOther (msg : String)
  | response (success : Bool) (errors : String) (result : List PricingInfo)
deriving DecidableEq, Repr

/-- A fetch outcome that constitutes a failure of the external fetch:
HTTP error, malformed payload, or a non-success status in the body. -/
def FetchOutcome.isFailure : FetchOutcome → Bool
  | .httpError _ => true
  | .raisedOther _ => true
  | .response success _ _ => !success

/-- Python `int(x)` on a rational: truncation toward zero. -/
def pyInt (q : Rat) : Int :=
  Int.tdiv q.num (q.den : Int)

/-- The loop `for pricing_info in data.get("result", []): if
pricing_info.get("tld") == tld: ...` — first catalog entry whose `tld`
field equals the requested TLD. -/
def findTld (tld : String) : List PricingInfo → Option PricingInfo
  | [] => none
  | info :: rest => if info.tld = tld then some info else findTld tld rest

/-- The client's `_price_cache` dict, as an association list whose lookup
returns the first binding (inserted bindings always have fresh keys). -/
abbrev PriceCache := List (String × DomainPrice)

/-- Dict lookup `self._price_cache[tld]` / membership `tld in self._price_cache`. -/
def lookupCache : PriceCache → String → Option DomainPrice
  | [], _ => none
  | (k, v) :: rest, tld => if k = tld then some v else lookupCache rest tld

/-- Mutable state of a `CloudflarePricing` client run: the TLD price cache
plus a counter of external fetches performed so far (the counter is ghost
state used to express the claims about network access). -/
structure PricingState where
  cache : PriceCache
  fetchCount : Nat
deriving DecidableEq, Repr

/-- `CloudflarePricing.get_tld_pricing(tld)` from `pricing.py`.  The
network is an oracle `fetch` giving the outcome of the n-th external fetch
of the run.  On a cache hit the cached price is returned with no fetch.
On a miss one fetch occurs; an HTTP error or any other exception is caught
and wrapped in `PricingError`; a non-success body raises `PricingError`
inside the `try`, which the generic `except Exception` handler re-wraps;
on success the first catalog entry for the TLD (if any) is converted to a
`DomainPrice`, cached, and returned, and an absent TLD yields `none`
without caching anything. -/
def get_tld_pricing (cfg : PricingConfig) (fetch : Nat → FetchOutcome)
    (st : PricingState) (tld : String) :
    Except PyExc (Option DomainPrice) × PricingState :=
  match lookupCache st.cache tld with
  | some p => (Except.ok (some p), st)
  | none =>
    match fetch st.fetchCount with
    | .httpError msg =>
        (Except.error (.pricingError (String.append "HTTP error fetching pricing: " msg)),
          ⟨st.cache, st.fetchCount + 1⟩)
    | .raisedOther msg =>
        (Except.error (.pricingError (String.append "Error fetching pricing: " msg)),
          ⟨st.cache, st.fetchCount + 1⟩)
    | .response success errors result =>
        if success then
          match findTld tld result with
          | some info =>
              let price_cents := pyInt ((info.price.getD 0) * 100)
              let renewal_cents :=
                match info.renewal_price with
                | some rp => pyInt (rp * 100)
                | none => pyInt ((price_cents : Rat) * 100)
              let dp := mkDomainPrice cfg (String.append "." tld) tld price_cents
                "USD" (some renewal_cents)
              (Except.ok (some dp), ⟨(tld, dp) :: st.cache, st.fetchCount + 1⟩)
          | none => (Except.ok none, ⟨st.cache, st.fetchCount + 1⟩)
        else
          (Except.error (.pricingError
              (String.append "Error fetching pricing: API error: " errors)),
            ⟨st.cache, st.fetchCount + 1⟩)

/-- C5: for every price and every threshold triple the computed category is
the single value prescribed by the precedence chain bundled → recommended →
premium → standard; in the spec's scenario (thresholds 500/1500/3000) the
prices 400, 1000, 3500, 2000 map to bundled, recommended, premium, standard. -/
theorem category_follows_spec_chain (cfg : PricingConfig) (d t c : String)
    (p : Int) (r : Option Int) :
    (mkDomainPrice cfg d t p c r).category = specCategory cfg p ∧
    (mkDomainPrice ⟨500, 1500, 3000⟩ "a" "a" 400 "USD" none).category = "bundled" ∧
    (mkDomainPrice ⟨500, 1500, 3000⟩ "a" "a" 1000 "USD" none).category = "recommended" ∧
    (mkDomainPrice ⟨500, 1500, 3000⟩ "a" "a" 3500 "USD" none).category = "premium" ∧
    (mkDomainPrice ⟨500, 1500, 3000⟩ "a" "a" 2000 "USD" none).category = "standard" := by
  refine ⟨?_, by decide, by decide, by decide, by decide⟩
  simp only [mkDomainPrice, DomainPrice.category, specCategory]
  by_cases h1 : p ≤ cfg.bundled_max_cents <;>
    by_cases h2 : p ≤ cfg.recommended_max_cents <;>
      by_cases h3 : p ≥ cfg.premium_flag_above_cents <;>
        simp [h1, h2, h3]

/-- C6 counterexample: with thresholds bundled_max = 500,
recommended_max = 1500, premium_flag_above = 1000, the price 1200 is
strictly above the premium flag and above bundled_max yet at most
recommended_max, and the code computes category "recommended", not
"premium": the recommended branch is tested before the premium one. -/
theorem category_premium_does_not_override_recommended :
    (1200 : Int) > 1000 ∧ (1200 : Int) > 500 ∧ (1200 : Int) ≤ 1500 ∧
    (mkDomainPrice ⟨500, 1500, 1000⟩ "a.com" "com" 1200 "USD" none).category
      = "recommended" ∧
    (mkDomainPrice ⟨500, 1500, 1000⟩ "a.com" "com" 1200 "USD" none).category
      ≠ "premium" := by
  refine ⟨by decide, by decide, by decide, by decide, by decide⟩

/-- C6 amended: a price strictly above the premium flag yields category
"premium" only once it also exceeds both bundled_max and recommended_max;
the premium comparison is reached only after the bundled and recommended
branches fail. -/
theorem category_premium_after_recommended_fails (cfg : PricingConfig)
    (d t c : String) (r : Option Int) (p : Int)
    (h1 : p > cfg.premium_flag_above_cents)
    (h2 : p > cfg.bundled_max_cents)
    (h3 : p > cfg.recommended_max_cents) :
    (mkDomainPrice cfg d t p c r).category = "premium" := by
  simp only [mkDomainPrice, DomainPrice.category]
  have hb : ¬ p ≤ cfg.bundled_max_cents := not_le.mpr h2
  have hr : ¬ p ≤ cfg.recommended_max_cents := not_le.mpr h3
  have hp : p ≥ cfg.premium_flag_above_cents := le_of_lt h1
  simp [hb, hr, hp]

/-- Witness for `category_premium_after_recommended_fails` at thresholds
500/1500/1000 and price 2000. -/
theorem category_premium_after_recommended_fails_witness :
    (mkDomainPrice ⟨500, 1500, 1000⟩ "a.com" "com" 2000 "USD" none).category
      = "premium" :=
  category_premium_after_recommended_fails ⟨500, 1500, 1000⟩ "a.com" "com" "USD"
    none 2000 (by decide) (by decide) (by decide)

/-- C10: the three flags are independent comparisons, not mutually
exclusive: when bundled_max ≤ recommended_max, `is_bundled` implies
`is_recommended`; and a price between the premium flag and recommended_max
has `is_recommended` and `is_premium` simultaneously true. -/
theorem price_flags_not_mutually_exclusive (cfg : PricingConfig)
    (d t c : String) (r : Option Int) (p : Int)
    (hcfg : cfg.bundled_max_cents ≤ cfg.recommended_max_cents) :
    ((mkDomainPrice cfg d t p c r).is_bundled = true →
      (mkDomainPrice cfg d t p c r).is_recommended = true) ∧
    (cfg.premium_flag_above_cents ≤ p → p ≤ cfg.recommended_max_cents →
      (mkDomainPrice cfg d t p c r).is_recommended = true ∧
      (mkDomainPrice cfg d t p c r).is_premium = true) := by
  simp only [mkDomainPrice, decide_eq_true_eq]
  exact ⟨fun hb => le_trans hb hcfg, fun hp hr => ⟨hr, hp⟩⟩

/-- Witness for `price_flags_not_mutually_exclusive`: thresholds
500/1500/1000, price 1200, a `DomainPrice` that is simultaneously
recommended and premium. -/
theorem price_flags_not_mutually_exclusive_witness :
    (mkDomainPrice ⟨500, 1500, 1000⟩ "a.com" "com" 1200 "USD" none).is_recommended
        = true ∧
    (mkDomainPrice ⟨500, 1500, 1000⟩ "a.com" "com" 1200 "USD" none).is_premium
        = true :=
  (price_flags_not_mutually_exclusive ⟨500, 1500, 1000⟩ "a.com" "com" "USD"
    none 1200 (by decide)).2 (by decide) (by decide)

/-- C7: whenever the external fetch fails (HTTP error, malformed payload,
or a non-success status in the response body) on a cache miss,
`get_tld_pricing` produces exactly the typed `PricingError` — it neither
returns a value nor surfaces an exception of another kind. -/
theorem pricing_fetch_failure_raises_pricing_error (cfg : PricingConfig)
    (fetch : Nat → FetchOutcome) (st : PricingState) (tld : String)
    (hmiss : lookupCache st.cache tld = none)
    (hfail : (fetch st.fetchCount).isFailure = true) :
    ∃ msg, (get_tld_pricing cfg fetch st tld).1
      = Except.error (PyExc.pricingError msg) := by
  cases hf : fetch st.fetchCount with
  | httpError m =>
      exact ⟨String.append "HTTP error fetching pricing: " m,
        by simp [get_tld_pricing, hmiss, hf]⟩
  | raisedOther m =>
      exact ⟨String.append "Error fetching pricing: " m,
        by simp [get_tld_pricing, hmiss, hf]⟩
  | response success errors result =>
      rw [hf] at hfail
      simp only [FetchOutcome.isFailure, Bool.not_eq_true'] at hfail
      exact ⟨String.append "Error fetching pricing: API error: " errors,
        by simp [get_tld_pricing, hmiss, hf, hfail]⟩

/-- A run whose every fetch fails with an HTTP error. -/
def fetchBoom : Nat → FetchOutcome := fun _ => .httpError "boom"

/-- Witness for `pricing_fetch_failure_raises_pricing_error`: an HTTP
failure on an empty cache yields a `PricingError` result. -/
theorem pricing_fetch_failure_raises_pricing_error_witness :
    ∃ msg, (get_tld_pricing ⟨500, 1500, 3000⟩ fetchBoom ⟨[], 0⟩ "com").1
      = Except.error (PyExc.pricingError msg) :=
  pricing_fetch_failure_raises_pricing_error ⟨500, 1500, 3000⟩ fetchBoom
    ⟨[], 0⟩ "com" rfl rfl

/-- A run whose every fetch succeeds but whose catalog is empty. -/
def fetchEmptyCatalog : Nat → FetchOutcome := fun _ => .response true "" []

/-- C2 counterexample: for the TLD "zzz", absent from the catalog, two
consecutive `get_tld_pricing` calls perform two external fetches (the
first call returns `none` without caching anything, so the second call is
a cache miss again), refuting "at most one external fetch in total". -/
theorem absent_tld_refetched_on_second_call :
    (get_tld_pricing ⟨500, 1500, 3000⟩ fetchEmptyCatalog ⟨[], 0⟩ "zzz").1
      = Except.ok none ∧
    ((get_tld_pricing ⟨500, 1500, 3000⟩ fetchEmptyCatalog ⟨[], 0⟩ "zzz").2).fetchCount
      = 1 ∧
    ((get_tld_pricing ⟨500, 1500, 3000⟩ fetchEmptyCatalog
        ((get_tld_pricing ⟨500, 1500, 3000⟩ fetchEmptyCatalog ⟨[], 0⟩ "zzz").2)
        "zzz").2).fetchCount = 2 :=
  ⟨rfl, rfl, rfl⟩

/-- Helper: a cache hit returns the cached price immediately, leaving the
state (and hence the fetch counter) untouched. -/
theorem get_tld_pricing_hit (cfg : PricingConfig) (fetch : Nat → FetchOutcome)
    (st : PricingState) (tld : String) (p : DomainPrice)
    (h : lookupCache st.cache tld = some p) :
    get_tld_pricing cfg fetch st tld = (Except.ok (some p), st) := by
  simp [get_tld_pricing, h]

/-- Helper: whenever `get_tld_pricing` returns a price, that price is in
the cache of the resulting state under the requested TLD. -/
theorem get_tld_pricing_ok_some_cached (cfg : PricingConfig)
    (fetch : Nat → FetchOutcome) (st : PricingState) (tld : String)
    (p : DomainPrice)
    (h : (get_tld_pricing cfg fetch st tld).1 = Except.ok (some p)) :
    lookupCache (get_tld_pricing cfg fetch st tld).2.cache tld = some p := by
  cases hc : lookupCache st.cache tld with
  | some q =>
      rw [get_tld_pricing_hit cfg fetch st tld q hc] at h ⊢
      simp at h
      simp [hc, h]
  | none =>
      cases hf : fetch st.fetchCount with
      | httpError m => simp [get_tld_pricing, hc, hf] at h
      | raisedOther m => simp [get_tld_pricing, hc, hf] at h
      | response success errors result =>
          cases success with
          | false => simp [get_tld_pricing, hc, hf] at h
          | true =>
              cases hfind : findTld tld result with
              | none => simp [get_tld_pricing, hc, hf, hfind] at h
              | some info =>
                  simp [get_tld_pricing, hc, hf, hfind] at h ⊢
                  simp [lookupCache, h]

/-- C2 amended: once a call to `get_tld_pricing` has returned a price for
a TLD (the TLD was found in the catalog), a second call for the same TLD
is answered from the cache: it returns the same price and leaves the
state — in particular the fetch counter — unchanged.  For a TLD absent
from the catalog (or a failed fetch) nothing is cached and every call
fetches again. -/
theorem tld_pricing_cached_after_found (cfg : PricingConfig)
    (fetch : Nat → FetchOutcome) (st : PricingState) (tld : String)
    (p : DomainPrice)
    (h : (get_tld_pricing cfg fetch st tld).1 = Except.ok (some p)) :
    get_tld_pricing cfg fetch (get_tld_pricing cfg fetch st tld).2 tld
      = (Except.ok (some p), (get_tld_pricing cfg fetch st tld).2) :=
  get_tld_pricing_hit cfg fetch _ tld p
    (get_tld_pricing_ok_some_cached cfg fetch st tld p h)

/-- A run whose every fetch succeeds with a one-entry catalog: TLD "com",
price 7 (dollars), no renewal_price field. -/
def fetchCatalog7 : Nat → FetchOutcome :=
  fun _ => .response true "" [⟨"com", some 7, none⟩]

/-- Witness for `tld_pricing_cached_after_found`: after a first call finds
"com" at price 700 cents, the second call returns the cached price with no
state change. -/
theorem tld_pricing_cached_after_found_witness :
    get_tld_pricing ⟨500, 1500, 3000⟩ fetchCatalog7
        ((get_tld_pricing ⟨500, 1500, 3000⟩ fetchCatalog7 ⟨[], 0⟩ "com").2) "com"
      = (Except.ok (some (mkDomainPrice ⟨500, 1500, 3000⟩ ".com" "com" 700 "USD"
          (some 70000))),
        (get_tld_pricing ⟨500, 1500, 3000⟩ fetchCatalog7 ⟨[], 0⟩ "com").2) :=
  tld_pricing_cached_after_found ⟨500, 1500, 3000⟩ fetchCatalog7 ⟨[], 0⟩ "com"
    (mkDomainPrice ⟨500, 1500, 3000⟩ ".com" "com" 700 "USD" (some 70000))
    (by with_unfolding_all rfl)

/-- Helper: truncating an integer-valued rational gives back the integer. -/
theorem pyInt_intCast (n : Int) : pyInt (n : Rat) = n := by
  simp [pyInt, Rat.num_intCast, Rat.den_intCast, Int.tdiv_one]

/-- Helper: `int(x * 100)` applied to an integer-valued rational is exact
multiplication by 100. -/
theorem pyInt_intCast_mul_hundred (n : Int) : pyInt ((n : Rat) * 100) = 100 * n := by
  have h : ((n : Rat) * 100) = ((100 * n : Int) : Rat) := by push_cast; ring
  rw [h, pyInt_intCast]

/-- A run whose every fetch succeeds with a one-entry catalog: TLD "xyz"
with both the price and the renewal_price fields absent. -/
def fetchCatalogNoPrice : Nat → FetchOutcome :=
  fun _ => .response true "" [⟨"xyz", none, none⟩]

/-- C9 counterexample: a catalog entry with no price and no renewal_price
field yields price_cents = 0, and the defaulted annual_renewal_cents is
some 0 — equal to price_cents, refuting the claim's "not equal to
price_cents" at this input (100 × 0 = 0). -/
theorem renewal_default_equals_price_at_zero :
    (get_tld_pricing ⟨500, 1500, 3000⟩ fetchCatalogNoPrice ⟨[], 0⟩ "xyz").1
      = Except.ok (some (mkDomainPrice ⟨500, 1500, 3000⟩ ".xyz" "xyz" 0 "USD"
          (some 0))) ∧
    (mkDomainPrice ⟨500, 1500, 3000⟩ ".xyz" "xyz" 0 "USD"
        (some 0)).annual_renewal_cents
      = some (mkDomainPrice ⟨500, 1500, 3000⟩ ".xyz" "xyz" 0 "USD"
          (some 0)).price_cents :=
  ⟨by with_unfolding_all rfl, rfl⟩

/-- C9 amended: for a catalog entry without a renewal_price field the
constructed price has annual_renewal_cents = 100 × price_cents (the
already-cents price is multiplied by 100 again as the default), which
differs from price_cents whenever price_cents ≠ 0; when renewal_price is
present, annual_renewal_cents = int(renewal_price × 100). -/
theorem renewal_default_multiplies_cents_again (cfg : PricingConfig)
    (fetch : Nat → FetchOutcome) (st : PricingState) (tld errs : String)
    (catalog : List PricingInfo) (info : PricingInfo)
    (hmiss : lookupCache st.cache tld = none)
    (hresp : fetch st.fetchCount = FetchOutcome.response true errs catalog)
    (hfind : findTld tld catalog = some info) :
    ∃ dp, (get_tld_pricing cfg fetch st tld).1 = Except.ok (some dp) ∧
      dp.price_cents = pyInt ((info.price.getD 0) * 100) ∧
      (info.renewal_price = none →
        dp.annual_renewal_cents = some (100 * dp.price_cents) ∧
        (dp.price_cents ≠ 0 → dp.annual_renewal_cents ≠ some dp.price_cents)) ∧
      (∀ rp, info.renewal_price = some rp →
        dp.annual_renewal_cents = some (pyInt (rp * 100))) := by
  cases hrp : info.renewal_price with
  | none =>
      refine ⟨mkDomainPrice cfg (String.append "." tld) tld
          (pyInt ((info.price.getD 0) * 100)) "USD"
          (some (pyInt (((pyInt ((info.price.getD 0) * 100) : Int) : Rat) * 100))),
        ?_, rfl, ?_, ?_⟩
      · simp [get_tld_pricing, hmiss, hresp, hfind, hrp]
      · intro _
        refine ⟨by simp [mkDomainPrice, pyInt_intCast_mul_hundred], ?_⟩
        intro hne heq
        simp only [mkDomainPrice] at hne heq
        rw [pyInt_intCast_mul_hundred] at heq
        simp only [Option.some.injEq] at heq
        omega
      · intro rp hrp2
        exact Option.noConfusion hrp2
  | some rp0 =>
      refine ⟨mkDomainPrice cfg (String.append "." tld) tld
          (pyInt ((info.price.getD 0) * 100)) "USD"
          (some (pyInt (rp0 * 100))), ?_, rfl, ?_, ?_⟩
      · simp [get_tld_pricing, hmiss, hresp, hfind, hrp]
      · intro hnone
        exact Option.noConfusion hnone
      · intro rp hrp2
        injection hrp2 with h
        subst h
        simp [mkDomainPrice]

/-- Witness for `renewal_default_multiplies_cents_again` on the catalog
entry for "com" at price 7 dollars with no renewal_price field. -/
theorem renewal_default_multiplies_cents_again_witness :
    ∃ dp, (get_tld_pricing ⟨500, 1500, 3000⟩ fetchCatalog7 ⟨[], 0⟩ "com").1
        = Except.ok (some dp) ∧
      dp.price_cents
        = pyInt (((PricingInfo.mk "com" (some 7) none).price.getD 0) * 100) ∧
      ((PricingInfo.mk "com" (some 7) none).renewal_price = none →
        dp.annual_renewal_cents = some (100 * dp.price_cents) ∧
        (dp.price_cents ≠ 0 → dp.annual_renewal_cents ≠ some dp.price_cents)) ∧
      (∀ rp, (PricingInfo.mk "com" (some 7) none).renewal_price = some rp →
        dp.annual_renewal_cents = some (pyInt (rp * 100))) :=
  renewal_default_multiplies_cents_again ⟨500, 1500, 3000⟩ fetchCatalog7
    ⟨[], 0⟩ "com" "" [⟨"com", some 7, none⟩] ⟨"com", some 7, none⟩
    rfl rfl (by with_unfolding_all rfl)

/-- `domain.lower().split(".")[-1]` — the lower-cased TLD of a domain
(for a dotless string this is the whole string). -/
def extractTld (domain : String) : String :=
  (domain.toLower.splitOn ".").getLastD ""

/-- The set comprehension of `batch_pricing`,
`{domain.lower().split(".")[-1] for domain in domains}`: the distinct TLDs
of the input, as a duplicate-free list.  A Python set has no specified
iteration order, so any duplicate-free enumeration is a faithful model;
only membership and cardinality are relied upon. -/
def distinctTlds (domains : List String) : List String :=
  (domains.map extractTld).dedup

/-- The first loop of `batch_pricing`: for each TLD call
`get_tld_pricing`, collecting found prices into `pricing_results`
(`pricing_results[tld] = tld_pricing`); a `PricingError` is caught and the
TLD skipped (`except PricingError: continue`); an exception of any other
kind would propagate out of the loop. -/
def fetchTldLoop (cfg : PricingConfig) (fetch : Nat → FetchOutcome) :
    List String → PricingState → List (String × DomainPrice) →
    Except PyExc (List (String × DomainPrice) × PricingState)
  | [], st, acc => Except.ok (acc, st)
  | tld :: rest, st, acc =>
    match get_tld_pricing cfg fetch st tld with
    | (Except.ok (some p), st') => fetchTldLoop cfg fetch rest st' (acc ++ [(tld, p)])
    | (Except.ok none, st') => fetchTldLoop cfg fetch rest st' acc
    | (Except.error (PyExc.pricingError _), st') => fetchTldLoop cfg fetch rest st' acc
    | (Except.error e, _) => Except.error e

/-- The second loop of `batch_pricing`: map the per-TLD prices back onto
the full domain list, constructing a fresh `DomainPrice` for each domain
whose TLD resolved to a price (`__post_init__` recomputes the flags). -/
def mapDomainPricing (cfg : PricingConfig)
    (pricing_results : List (String × DomainPrice)) :
    List String → List (String × DomainPrice)
  | [] => []
  | d :: rest =>
    match lookupCache pricing_results (extractTld d) with
    | some tp =>
        (d, mkDomainPrice cfg d tp.tld tp.price_cents tp.currency
          tp.annual_renewal_cents) :: mapDomainPricing cfg pricing_results rest
    | none => mapDomainPricing cfg pricing_results rest

/-- `CloudflarePricing.batch_pricing(domains)` from `pricing.py`: extract
the distinct TLDs, fetch pricing per TLD (skipping pricing errors), then
map the prices back to the full domains.  The returned association list is
the `domain -> DomainPrice` dict. -/
def batch_pricing (cfg : PricingConfig) (fetch : Nat → FetchOutcome)
    (st : PricingState) (domains : List String) :
    Except PyExc (List (String × DomainPrice) × PricingState) :=
  match fetchTldLoop cfg fetch (distinctTlds domains) st [] with
  | Except.ok (pricing_results, st') =>
      Except.ok (mapDomainPricing cfg pricing_results domains, st')
  | Except.error e => Except.error e

/-- Outcome of the black-box registration lookup of the spec,
`lookupDomain(domain) -> RegistrationStatus`. -/
inductive LookupOutcome where
  | available
  | registered (registrar expiration creation : Option String)
  | failure (msg : String)
deriving DecidableEq, Repr

/-- `DomainResult` from the data model: domain, status
("AVAILABLE" / "REGISTERED" / "UNKNOWN"), optional registration details
and error text.  `pricingInfo` models the `_pricing_info` attribute that
`cli.py` attaches dynamically to a result. -/
structure DomainResult where
  domain : String
  status : String
  registrar : Option String
  expiration : Option String
  creation : Option String
  error : Option String
  pricingInfo : Option DomainPrice
deriving DecidableEq, Repr

/-- Modelled from the spec: `check_domain` of the absent `checker.py`.
On a successful lookup it maps the registration data to status REGISTERED
(with registrar/expiration/creation) or AVAILABLE; on any lookup failure
it returns status UNKNOWN with `error` populated, never propagating. -/
def check_domain (lookup : String → LookupOutcome) (d : String) : DomainResult :=
  match lookup d with
  | .available => ⟨d, "AVAILABLE", none, none, none, none, none⟩
  | .registered r e c => ⟨d, "REGISTERED", r, e, c, none, none⟩
  | .failure msg => ⟨d, "UNKNOWN", none, none, none, some msg, none⟩

/-- Modelled from the spec: `check_domains` of the absent `checker.py` —
one `DomainResult` per input domain, in input order.  The pacing delay and
progress notifications are timing-only effects that do not affect the
returned data, so they have no counterpart here. -/
def check_domains (lookup : String → LookupOutcome) (domains : List String) :
    List DomainResult :=
  domains.map (check_domain lookup)

/-- `[r.domain for r in results if r.status == "AVAILABLE"]` from
`check_multiple_domains`. -/
def availableDomains (results : List DomainResult) : List String :=
  (results.filter (fun r => r.status == "AVAILABLE")).map (fun r => r.domain)

/-- The pricing-attachment loop of `check_multiple_domains`:
`if result.domain in pricing_info: result._pricing_info = pricing_info[result.domain]`. -/
def attachPricing (pricing_info : PriceCache) (r : DomainResult) : DomainResult :=
  match lookupCache pricing_info r.domain with
  | some p => ⟨r.domain, r.status, r.registrar, r.expiration, r.creation,
      r.error, some p⟩
  | none => r

/-- A result with the dynamically attached pricing erased. -/
def stripPricing (r : DomainResult) : DomainResult :=
  ⟨r.domain, r.status, r.registrar, r.expiration, r.creation, r.error, none⟩

/-- `check_multiple_domains(domains, include_pricing)` from `cli.py`:
check availability for every domain, then, when pricing is enabled and
some domain is AVAILABLE, fetch batch pricing for the available subset and
attach it; a failure of the whole batch-pricing call is caught
(`except Exception`), leaving the results unpriced. -/
def check_multiple_domains (cfg : PricingConfig) (fetch : Nat → FetchOutcome)
    (lookup : String → LookupOutcome) (st : PricingState)
    (domains : List String) (include_pricing : Bool) :
    List DomainResult × PricingState :=
  let results := check_domains lookup domains
  if include_pricing then
    if (availableDomains results).isEmpty then (results, st)
    else
      match batch_pricing cfg fetch st (availableDomains results) with
      | Except.ok (pricing_info, st') =>
          (results.map (attachPricing pricing_info), st')
      | Except.error _ => (results, st)
  else (results, st)

/-- Helper: `check_domain` labels its result with the checked domain. -/
theorem check_domain_domain (lookup : String → LookupOutcome) (d : String) :
    (check_domain lookup d).domain = d := by
  unfold check_domain
  cases lookup d <;> rfl

/-- Helper: a freshly checked result carries no pricing. -/
theorem check_domain_pricingInfo (lookup : String → LookupOutcome) (d : String) :
    (check_domain lookup d).pricingInfo = none := by
  unfold check_domain
  cases lookup d <;> rfl

/-- Helper: every member of a `check_domains` batch carries no pricing. -/
theorem check_domains_mem_pricingInfo (lookup : String → LookupOutcome)
    (domains : List String) (r : DomainResult)
    (h : r ∈ check_domains lookup domains) : r.pricingInfo = none := by
  unfold check_domains at h
  rcases List.mem_map.mp h with ⟨d, _, rfl⟩
  exact check_domain_pricingInfo lookup d

/-- Helper: stripping is the identity on freshly checked results. -/
theorem stripPricing_check_domain (lookup : String → LookupOutcome) (d : String) :
    stripPricing (check_domain lookup d) = check_domain lookup d := by
  unfold check_domain stripPricing
  cases lookup d <;> rfl

/-- Helper: attaching pricing does not change the stripped result. -/
theorem stripPricing_attachPricing (pinfo : PriceCache) (r : DomainResult) :
    stripPricing (attachPricing pinfo r) = stripPricing r := by
  unfold attachPricing
  cases lookupCache pinfo r.domain <;> rfl

/-- Helper: attaching pricing does not change the status. -/
theorem attachPricing_status (pinfo : PriceCache) (r : DomainResult) :
    (attachPricing pinfo r).status = r.status := by
  unfold attachPricing
  cases lookupCache pinfo r.domain <;> rfl

/-- Helper: attaching against an empty dict is the identity. -/
theorem attachPricing_nil (r : DomainResult) : attachPricing [] r = r := rfl

/-- Helper: if the attached result carries a price but the original did
not, the pricing dict holds that domain. -/
theorem attachPricing_isSome (pinfo : PriceCache) (r : DomainResult)
    (h : (attachPricing pinfo r).pricingInfo.isSome = true)
    (h0 : r.pricingInfo = none) :
    ∃ p, lookupCache pinfo r.domain = some p := by
  unfold attachPricing at h
  cases hc : lookupCache pinfo r.domain with
  | some p => exact ⟨p, rfl⟩
  | none =>
      rw [hc] at h
      rw [h0] at h
      cases h

/-- Helper: attaching an empty dict over a whole list is the identity. -/
theorem map_attachPricing_nil (l : List DomainResult) :
    l.map (attachPricing []) = l := by
  have h : attachPricing [] = id := funext fun r => rfl
  rw [h, List.map_id]

/-- Helper: the report of `check_multiple_domains` is always the checked
results with some pricing dict attached (the empty dict when pricing is
disabled, no domain is available, or the batch call failed). -/
theorem check_multiple_domains_fst (cfg : PricingConfig)
    (fetch : Nat → FetchOutcome) (lookup : String → LookupOutcome)
    (st : PricingState) (domains : List String) (include_pricing : Bool) :
    ∃ pinfo : PriceCache,
      (check_multiple_domains cfg fetch lookup st domains include_pricing).1
        = (check_domains lookup domains).map (attachPricing pinfo) := by
  unfold check_multiple_domains
  by_cases hinc : include_pricing = true
  · simp only [hinc, if_true]
    by_cases hemp : (availableDomains (check_domains lookup domains)).isEmpty = true
    · exact ⟨[], by simp [hemp, map_attachPricing_nil]⟩
    · simp only [hemp, if_false, Bool.false_eq_true]
      cases hb : batch_pricing cfg fetch st (availableDomains (check_domains lookup domains)) with
      | ok pair => exact ⟨pair.1, by simp [hemp]⟩
      | error e => exact ⟨[], by simp [hemp, map_attachPricing_nil]⟩
  · simp only [Bool.not_eq_true] at hinc
    exact ⟨[], by simp [hinc, map_attachPricing_nil]⟩

/-- Helper: stripping the whole checked batch is the identity. -/
theorem check_domains_map_strip (lookup : String → LookupOutcome)
    (domains : List String) :
    (check_domains lookup domains).map stripPricing = check_domains lookup domains := by
  unfold check_domains
  rw [List.map_map]
  simp [Function.comp_def, stripPricing_check_domain]

/-- C1: the batch check returns one report entry per input domain in input
order: stripped of the attached pricing, the report equals the list of
`DomainResult`s of the input domains (so the i-th entry is the i-th
domain's result, paired with its price exactly when one was attached), and
its length equals the input length. -/
theorem report_one_entry_per_domain_in_order (cfg : PricingConfig)
    (fetch : Nat → FetchOutcome) (lookup : String → LookupOutcome)
    (st : PricingState) (domains : List String) (include_pricing : Bool) :
    ((check_multiple_domains cfg fetch lookup st domains include_pricing).1).map
        stripPricing
      = check_domains lookup domains ∧
    ((check_multiple_domains cfg fetch lookup st domains include_pricing).1).length
      = domains.length := by
  obtain ⟨pinfo, hrep⟩ :=
    check_multiple_domains_fst cfg fetch lookup st domains include_pricing
  rw [hrep]
  constructor
  · rw [List.map_map]
    have : stripPricing ∘ attachPricing pinfo = stripPricing := by
      funext r
      exact stripPricing_attachPricing pinfo r
    rw [this, check_domains_map_strip]
  · simp [check_domains]

/-- Helper: the available subset of a checked batch is the order-preserving
filter of the input domains by availability of their check result. -/
theorem availableDomains_check_domains (lookup : String → LookupOutcome)
    (domains : List String) :
    availableDomains (check_domains lookup domains)
      = domains.filter (fun d => (check_domain lookup d).status == "AVAILABLE") := by
  induction domains with
  | nil => rfl
  | cons d rest ih =>
      unfold availableDomains check_domains at ih ⊢
      simp only [List.map_cons, List.filter_cons]
      cases h : (check_domain lookup d).status == "AVAILABLE" with
      | true => simp only [h, if_true, List.map_cons, check_domain_domain, ih]
      | false => simp only [h, if_false, Bool.false_eq_true, ih]

/-- Helper: a successful association-list lookup means the pair is a
member of the list. -/
theorem lookupCache_some_mem (l : PriceCache) (x : String) (p : DomainPrice)
    (h : lookupCache l x = some p) : (x, p) ∈ l := by
  induction l with
  | nil => cases h
  | cons kv rest ih =>
      obtain ⟨k, v⟩ := kv
      by_cases hk : k = x
      · subst hk
        simp only [lookupCache, if_true] at h
        injection h with h
        subst h
        exact List.mem_cons_self _ _
      · simp only [lookupCache, hk, if_false] at h
        exact List.mem_cons_of_mem _ (ih h)

/-- Helper: every domain keyed in the dict built by the second
`batch_pricing` loop comes from its input domain list. -/
theorem mapDomainPricing_mem (cfg : PricingConfig) (pr : PriceCache)
    (doms : List String) (x : String) (p : DomainPrice)
    (h : (x, p) ∈ mapDomainPricing cfg pr doms) : x ∈ doms := by
  induction doms with
  | nil => cases h
  | cons d rest ih =>
      unfold mapDomainPricing at h
      cases hc : lookupCache pr (extractTld d) with
      | some tp =>
          rw [hc] at h
          rcases List.mem_cons.mp h with h1 | h2
          · injection h1 with h1a h1b
            rw [h1a]
            exact List.mem_cons_self _ _
          · exact List.mem_cons_of_mem _ (ih h2)
      | none =>
          rw [hc] at h
          exact List.mem_cons_of_mem _ (ih h)

/-- Helper: every domain keyed in a successful `batch_pricing` result dict
comes from the input domain list. -/
theorem batch_pricing_keys_subset (cfg : PricingConfig)
    (fetch : Nat → FetchOutcome) (st : PricingState) (doms : List String)
    (pinfo : PriceCache) (st' : PricingState) (x : String) (p : DomainPrice)
    (hb : batch_pricing cfg fetch st doms = Except.ok (pinfo, st'))
    (h : lookupCache pinfo x = some p) : x ∈ doms := by
  unfold batch_pricing at hb
  cases hl : fetchTldLoop cfg fetch (distinctTlds doms) st [] with
  | ok pair =>
      rw [hl] at hb
      injection hb with hb
      have h1 : pinfo = mapDomainPricing cfg pair.1 doms := by
        have := congrArg Prod.fst hb
        simp at this
        exact this.symm
      rw [h1] at h
      exact mapDomainPricing_mem cfg pair.1 doms x p (lookupCache_some_mem _ _ _ h)
  | error e =>
      rw [hl] at hb
      cases hb

/-- C8: pricing lookups are issued only for the AVAILABLE subset of the
input, taken in input order (the list handed to batch pricing is the
order-preserving filter of the input by availability), and a report entry
that carries a price always has status AVAILABLE — a REGISTERED or
UNKNOWN result never receives one. -/
theorem pricing_only_for_available_domains (cfg : PricingConfig)
    (fetch : Nat → FetchOutcome) (lookup : String → LookupOutcome)
    (st : PricingState) (domains : List String) (r : DomainResult)
    (hr : r ∈ (check_multiple_domains cfg fetch lookup st domains true).1)
    (hp : r.pricingInfo.isSome = true) :
    r.status = "AVAILABLE" ∧
    availableDomains (check_domains lookup domains)
      = domains.filter (fun d => (check_domain lookup d).status == "AVAILABLE") := by
  refine ⟨?_, availableDomains_check_domains lookup domains⟩
  unfold check_multiple_domains at hr
  simp only [if_true] at hr
  by_cases hemp : (availableDomains (check_domains lookup domains)).isEmpty = true
  · rw [if_pos hemp] at hr
    have := check_domains_mem_pricingInfo lookup domains r hr
    rw [this] at hp
    cases hp
  · rw [if_neg hemp] at hr
    cases hb : batch_pricing cfg fetch st (availableDomains (check_domains lookup domains)) with
    | error e =>
        rw [hb] at hr
        have := check_domains_mem_pricingInfo lookup domains r hr
        rw [this] at hp
        cases hp
    | ok pair =>
        rw [hb] at hr
        simp only at hr
        rcases List.mem_map.mp hr with ⟨r0, hr0, rfl⟩
        have h0 : r0.pricingInfo = none :=
          check_domains_mem_pricingInfo lookup domains r0 hr0
        obtain ⟨p, hlp⟩ := attachPricing_isSome pair.1 r0 hp h0
        have hdom : r0.domain ∈ availableDomains (check_domains lookup domains) :=
          batch_pricing_keys_subset cfg fetch st _ pair.1 pair.2 r0.domain p
            (by rw [hb]) hlp
        rw [availableDomains_check_domains] at hdom
        have hpred := (List.mem_filter.mp hdom).2
        rcases List.mem_map.mp hr0 with ⟨d0, _, rfl⟩
        rw [attachPricing_status]
        rw [check_domain_domain] at hpred
        exact eq_of_beq hpred

/-- Witness for `pricing_only_for_available_domains`: a one-domain batch
whose available domain "a.com" got the cached "com" price attached. -/
theorem pricing_only_for_available_domains_witness :
    (⟨"a.com", "AVAILABLE", none, none, none, none,
        some (mkDomainPrice ⟨500, 1500, 3000⟩ "a.com" "com" 700 "USD"
          (some 70000))⟩ : DomainResult).status = "AVAILABLE" ∧
    availableDomains (check_domains (fun _ => LookupOutcome.available) ["a.com"])
      = (["a.com"]).filter
          (fun d => (check_domain (fun _ => LookupOutcome.available) d).status
            == "AVAILABLE") :=
  pricing_only_for_available_domains ⟨500, 1500, 3000⟩ fetchCatalog7
    (fun _ => LookupOutcome.available) ⟨[], 0⟩ ["a.com"]
    ⟨"a.com", "AVAILABLE", none, none, none, none,
      some (mkDomainPrice ⟨500, 1500, 3000⟩ "a.com" "com" 700 "USD" (some 70000))⟩
    (by
      have h : (check_multiple_domains ⟨500, 1500, 3000⟩ fetchCatalog7
          (fun _ => LookupOutcome.available) ⟨[], 0⟩ ["a.com"] true).1
          = [⟨"a.com", "AVAILABLE", none, none, none, none,
              some (mkDomainPrice ⟨500, 1500, 3000⟩ "a.com" "com" 700 "USD"
                (some 70000))⟩] := by
        with_unfolding_all rfl
      rw [h]
      exact List.mem_singleton.mpr rfl)
    rfl

/-- Helper: any error produced by `get_tld_pricing` is a `PricingError`
(the `try` block wraps every failure in the typed error). -/
theorem get_tld_pricing_error_is_pricing (cfg : PricingConfig)
    (fetch : Nat → FetchOutcome) (st : PricingState) (tld : String) (e : PyExc)
    (h : (get_tld_pricing cfg fetch st tld).1 = Except.error e) :
    ∃ m, e = PyExc.pricingError m := by
  cases hc : lookupCache st.cache tld with
  | some q => simp [get_tld_pricing, hc] at h
  | none =>
      cases hf : fetch st.fetchCount with
      | httpError m =>
          simp [get_tld_pricing, hc, hf] at h
          exact ⟨_, h.symm⟩
      | raisedOther m =>
          simp [get_tld_pricing, hc, hf] at h
          exact ⟨_, h.symm⟩
      | response success errors result =>
          cases success with
          | false =>
              simp [get_tld_pricing, hc, hf] at h
              exact ⟨_, h.symm⟩
          | true =>
              cases hfind : findTld tld result with
              | some info => simp [get_tld_pricing, hc, hf, hfind] at h
              | none => simp [get_tld_pricing, hc, hf, hfind] at h

/-- Helper: a cache miss performs exactly one fetch, whatever its outcome. -/
theorem get_tld_pricing_miss_fetchCount (cfg : PricingConfig)
    (fetch : Nat → FetchOutcome) (st : PricingState) (tld : String)
    (h : lookupCache st.cache tld = none) :
    (get_tld_pricing cfg fetch st tld).2.fetchCount = st.fetchCount + 1 := by
  cases hf : fetch st.fetchCount with
  | httpError m => simp [get_tld_pricing, h, hf]
  | raisedOther m => simp [get_tld_pricing, h, hf]
  | response success errors result =>
      cases success with
      | false => simp [get_tld_pricing, h, hf]
      | true =>
          cases hfind : findTld tld result with
          | some info => simp [get_tld_pricing, h, hf, hfind]
          | none => simp [get_tld_pricing, h, hf, hfind]

/-- Helper: a call for one TLD never changes the cache entry of another. -/
theorem get_tld_pricing_cache_other (cfg : PricingConfig)
    (fetch : Nat → FetchOutcome) (st : PricingState) (tld t : String)
    (h : lookupCache st.cache tld = none) (ht : t ≠ tld) :
    lookupCache (get_tld_pricing cfg fetch st tld).2.cache t
      = lookupCache st.cache t := by
  cases hf : fetch st.fetchCount with
  | httpError m => simp [get_tld_pricing, h, hf]
  | raisedOther m => simp [get_tld_pricing, h, hf]
  | response success errors result =>
      cases success with
      | false => simp [get_tld_pricing, h, hf]
      | true =>
          cases hfind : findTld tld result with
          | some info =>
              simp only [get_tld_pricing, h, hf, hfind, if_true]
              simp [lookupCache, Ne.symm ht]
          | none => simp [get_tld_pricing, h, hf, hfind]

/-- Helper: the TLD loop of `batch_pricing` always terminates normally
(the only failures `get_tld_pricing` can raise are `PricingError`s, and
those are caught and skipped). -/
theorem fetchTldLoop_ok (cfg : PricingConfig) (fetch : Nat → FetchOutcome)
    (tlds : List String) :
    ∀ (st : PricingState) (acc : List (String × DomainPrice)),
      ∃ res st', fetchTldLoop cfg fetch tlds st acc = Except.ok (res, st') := by
  induction tlds with
  | nil => intro st acc; exact ⟨acc, st, rfl⟩
  | cons tld rest ih =>
      intro st acc
      rcases hg : get_tld_pricing cfg fetch st tld with ⟨res1, st1⟩
      cases res1 with
      | ok o =>
          cases o with
          | some p =>
              obtain ⟨res, st', hl⟩ := ih st1 (acc ++ [(tld, p)])
              exact ⟨res, st', by unfold fetchTldLoop; rw [hg]; exact hl⟩
          | none =>
              obtain ⟨res, st', hl⟩ := ih st1 acc
              exact ⟨res, st', by unfold fetchTldLoop; rw [hg]; exact hl⟩
      | error e =>
          obtain ⟨m, hm⟩ :=
            get_tld_pricing_error_is_pricing cfg fetch st tld e (by rw [hg])
          subst hm
          obtain ⟨res, st', hl⟩ := ih st1 acc
          exact ⟨res, st', by unfold fetchTldLoop; rw [hg]; exact hl⟩

/-- Helper: over pairwise-distinct TLDs none of which is cached, the TLD
loop terminates normally having performed exactly one fetch per TLD. -/
theorem fetchTldLoop_ok_count (cfg : PricingConfig)
    (fetch : Nat → FetchOutcome) (tlds : List String) :
    ∀ (st : PricingState) (acc : List (String × DomainPrice)),
      tlds.Nodup → (∀ t ∈ tlds, lookupCache st.cache t = none) →
      ∃ res st', fetchTldLoop cfg fetch tlds st acc = Except.ok (res, st') ∧
        st'.fetchCount = st.fetchCount + tlds.length := by
  induction tlds with
  | nil => intro st acc _ _; exact ⟨acc, st, rfl, by simp⟩
  | cons tld rest ih =>
      intro st acc hnd hdisj
      have hmiss : lookupCache st.cache tld = none :=
        hdisj tld (List.mem_cons_self _ _)
      rcases hg : get_tld_pricing cfg fetch st tld with ⟨res1, st1⟩
      have hst1 : st1.fetchCount = st.fetchCount + 1 := by
        have hn := get_tld_pricing_miss_fetchCount cfg fetch st tld hmiss
        rw [hg] at hn
        exact hn
      have hrest1 : ∀ t ∈ rest, lookupCache st1.cache t = none := by
        intro t htr
        have hne : t ≠ tld := fun hEq => (List.nodup_cons.mp hnd).1 (hEq ▸ htr)
        have h2 := get_tld_pricing_cache_other cfg fetch st tld t hmiss hne
        rw [hg] at h2
        rw [h2]
        exact hdisj t (List.mem_cons_of_mem _ htr)
      have hndr := (List.nodup_cons.mp hnd).2
      cases res1 with
      | ok o =>
          cases o with
          | some p =>
              obtain ⟨res, st', hl, hc⟩ := ih st1 (acc ++ [(tld, p)]) hndr hrest1
              refine ⟨res, st', by unfold fetchTldLoop; rw [hg]; exact hl, ?_⟩
              rw [hc, hst1]
              simp only [List.length_cons]
              omega
          | none =>
              obtain ⟨res, st', hl, hc⟩ := ih st1 acc hndr hrest1
              refine ⟨res, st', by unfold fetchTldLoop; rw [hg]; exact hl, ?_⟩
              rw [hc, hst1]
              simp only [List.length_cons]
              omega
      | error e =>
          obtain ⟨m, hm⟩ :=
            get_tld_pricing_error_is_pricing cfg fetch st tld e (by rw [hg])
          subst hm
          obtain ⟨res, st', hl, hc⟩ := ih st1 acc hndr hrest1
          refine ⟨res, st', by unfold fetchTldLoop; rw [hg]; exact hl, ?_⟩
          rw [hc, hst1]
          simp only [List.length_cons]
          omega

/-- C3: starting from an empty cache, batch pricing performs exactly one
external fetch per distinct lower-cased TLD of its input — not one per
domain; in particular 5 domains over the 2 distinct TLDs "com" and "io"
cause exactly 2 fetches. -/
theorem batch_pricing_one_fetch_per_distinct_tld (cfg : PricingConfig)
    (fetch : Nat → FetchOutcome) (domains : List String) :
    (∃ res st', batch_pricing cfg fetch ⟨[], 0⟩ domains = Except.ok (res, st') ∧
      st'.fetchCount = (distinctTlds domains).length) ∧
    (distinctTlds ["a.com", "b.com", "c.io", "d.io", "e.com"]).length = 2 ∧
    (∃ res st', batch_pricing cfg fetch ⟨[], 0⟩
        ["a.com", "b.com", "c.io", "d.io", "e.com"] = Except.ok (res, st') ∧
      st'.fetchCount = 2) := by
  have hgen : ∀ (doms : List String), ∃ res st',
      batch_pricing cfg fetch ⟨[], 0⟩ doms = Except.ok (res, st') ∧
      st'.fetchCount = (distinctTlds doms).length := by
    intro doms
    obtain ⟨res0, st', hl, hc⟩ := fetchTldLoop_ok_count cfg fetch
      (distinctTlds doms) ⟨[], 0⟩ [] (List.nodup_dedup _) (fun t _ => rfl)
    refine ⟨mapDomainPricing cfg res0 doms, st', ?_, ?_⟩
    · unfold batch_pricing
      rw [hl]
    · simpa using hc
  have hlen : (distinctTlds ["a.com", "b.com", "c.io", "d.io", "e.com"]).length
      = 2 := by
    with_unfolding_all rfl
  refine ⟨hgen domains, hlen, ?_⟩
  obtain ⟨res, st', h1, h2⟩ := hgen ["a.com", "b.com", "c.io", "d.io", "e.com"]
  exact ⟨res, st', h1, by rw [h2, hlen]⟩

/-- A run where the first fetch fails with an HTTP error and every later
fetch succeeds with a catalog holding only the TLD "io" at 9 dollars. -/
def fetchMixed : Nat → FetchOutcome :=
  fun n =>
    if n = 0 then .httpError "network error"
    else .response true "" [⟨"io", some 9, none⟩]

/-- C4: a pricing-fetch failure for one TLD never fails the batch: batch
pricing always returns a dict rather than propagating an exception, and in
the 3-domain scenario where the fetch for "com" fails (simulated network
error) while the fetch for "io" succeeds, the report still holds all three
`DomainResult`s in input order, the "com" domains carry no pricing entry,
and "c.io" keeps its price. -/
theorem batch_pricing_tolerates_single_tld_failure (cfg : PricingConfig)
    (fetch : Nat → FetchOutcome) (st : PricingState) (domains : List String) :
    (∃ res st', batch_pricing cfg fetch st domains = Except.ok (res, st')) ∧
    (check_multiple_domains ⟨500, 1500, 3000⟩ fetchMixed
        (fun _ => LookupOutcome.available) ⟨[], 0⟩
        ["a.com", "b.com", "c.io"] true).1
      = [⟨"a.com", "AVAILABLE", none, none, none, none, none⟩,
         ⟨"b.com", "AVAILABLE", none, none, none, none, none⟩,
         ⟨"c.io", "AVAILABLE", none, none, none, none,
           some (mkDomainPrice ⟨500, 1500, 3000⟩ "c.io" "io" 900 "USD"
             (some 90000))⟩] := by
  constructor
  · obtain ⟨res0, st', hl⟩ := fetchTldLoop_ok cfg fetch (distinctTlds domains) st []
    exact ⟨mapDomainPricing cfg res0 domains, st', by unfold batch_pricing; rw [hl]⟩
  · with_unfolding_all rfl
